import Mathlib

/-!
Shallow embedding of the portfolio accounting engine of the `calc`
repository (source: `src/App.tsx`, types from `src/types.ts`).

Numbers are modelled as rationals (`ℚ`); string inputs that the source
parses with `parseFloat` (and checks for emptiness / `NaN`) are modelled
as `Option ℚ`, `none` standing for an absent or unparseable input.
`isActive` (source: `t.isActive !== false`) is modelled as a `Bool` field.

The embedded derivations keep the source names:
`summary` (Position Aggregator), `transactionsWithStats` (Realized P/L
Annotator), `previewData` (Preview Engine), `simulation` (Simulation
Engine) and `costAveragingData` (Cost-Averaging Solver).
-/

namespace Borsa

/-- Transaction kind, from `src/types.ts` (`type: 'BUY' | 'SELL'`). -/
inductive TxType where
  | BUY
  | SELL
  deriving DecidableEq, Repr

/-- The two transaction kinds are distinct (used to reduce branch tests). -/
@[simp] theorem sell_ne_buy : TxType.SELL ≠ TxType.BUY := by decide

/-- Propositional form of `sell_ne_buy`, for rewriting branch conditions. -/
@[simp] theorem sell_eq_buy_false : (TxType.SELL = TxType.BUY) = False := by
  simp [sell_ne_buy]

/-- A transaction record, from `src/types.ts`; `id`, `symbol` and
`timestamp` play no role in the engine (the engine receives the already
filtered, timestamp-sorted list) and are omitted. -/
structure Transaction where
  price : ℚ
  quantity : ℚ
  isActive : Bool
  type : TxType
  deriving DecidableEq, Repr

/-- Derived position, from `src/types.ts` (`PortfolioSummary`). -/
structure PortfolioSummary where
  totalQuantity : ℚ
  totalCost : ℚ
  averageCost : ℚ
  deriving DecidableEq, Repr

/-- The active-transaction filter (`currentTransactions.filter(t => t.isActive !== false)`,
`src/App.tsx` line 167). -/
def activeTx (l : List Transaction) : List Transaction :=
  l.filter (fun t => t.isActive)

/-- One loop iteration of the Position Aggregator (`summary`, `src/App.tsx`
lines 176-190): BUY adds cost and quantity; SELL from a positive position
rescales the cost to the remaining quantity at the pre-sale average; SELL
from an empty or negative position subtracts raw proceeds. -/
def summaryStep (st : ℚ × ℚ) (t : Transaction) : ℚ × ℚ :=
  if t.type = TxType.BUY then
    (st.1 + t.quantity, st.2 + t.price * t.quantity)
  else if 0 < st.1 then
    let avgCost := st.2 / st.1
    (st.1 - t.quantity, (st.1 - t.quantity) * avgCost)
  else
    (st.1 - t.quantity, st.2 - t.price * t.quantity)

/-- The Position Aggregator (`summary`, `src/App.tsx` lines 166-202):
replay the active transactions, then clamp quantity and cost to zero
once after the loop, then derive the average. -/
def summary (l : List Transaction) : PortfolioSummary :=
  let act := activeTx l
  if act = [] then ⟨0, 0, 0⟩
  else
    let st := act.foldl summaryStep (0, 0)
    let q := max 0 st.1
    let c := max 0 st.2
    ⟨q, c, if 0 < q then c / q else 0⟩

/-- Per-transaction stats attached by the Realized P/L Annotator
(`transactionsWithStats`, `src/App.tsx` lines 157-161). -/
structure TxStats where
  realizedPL : Option ℚ
  realizedPLPercent : ℚ
  deriving DecidableEq, Repr

/-- One iteration of the Realized P/L Annotator's replay
(`transactionsWithStats`, `src/App.tsx` lines 115-156): returns the stats
attached to the transaction and the next running state.  Inactive
transactions are skipped (state unchanged, null stats).  The running
quantity and cost are clamped to zero at the end of EVERY iteration
(lines 154-155). -/
def annotateStep (st : ℚ × ℚ) (t : Transaction) : TxStats × (ℚ × ℚ) :=
  let currentAvgCost := if 0 < st.1 then st.2 / st.1 else 0
  let res : TxStats × (ℚ × ℚ) :=
    if t.isActive then
      if t.type = TxType.BUY then
        (⟨none, 0⟩, (st.1 + t.quantity, st.2 + t.price * t.quantity))
      else if 0 < st.1 then
        let costBasis := t.quantity * currentAvgCost
        let saleProceeds := t.quantity * t.price
        (⟨some (saleProceeds - costBasis),
          if 0 < currentAvgCost then (t.price - currentAvgCost) / currentAvgCost * 100 else 0⟩,
         (st.1 - t.quantity, st.2 - costBasis))
      else
        (⟨none, 0⟩, (st.1 - t.quantity, st.2 - t.price * t.quantity))
    else (⟨none, 0⟩, st)
  (res.1, (max 0 res.2.1, max 0 res.2.2))

/-- The annotator's map-with-running-state, started from state `st`. -/
def annotateFrom (st : ℚ × ℚ) : List Transaction → List (Transaction × TxStats)
  | [] => []
  | t :: ts => (t, (annotateStep st t).1) :: annotateFrom (annotateStep st t).2 ts

/-- The Realized P/L Annotator (`transactionsWithStats`, `src/App.tsx`
lines 111-163): every transaction of the input, paired with its stats. -/
def transactionsWithStats (l : List Transaction) : List (Transaction × TxStats) :=
  annotateFrom (0, 0) l

/-- The state transition of one annotator iteration. -/
def annStep (st : ℚ × ℚ) (t : Transaction) : ℚ × ℚ := (annotateStep st t).2

/-- The annotator's running state after consuming the whole list. -/
def annotateState (l : List Transaction) : ℚ × ℚ := l.foldl annStep (0, 0)

/-- Result of the Preview Engine (`previewData`, `src/App.tsx` lines 232-237). -/
structure PreviewResult where
  newAvg : ℚ
  diff : ℚ
  isFirst : Bool
  estimatedRealizedPL : Option ℚ
  deriving DecidableEq, Repr

/-- The Preview Engine (`previewData`, `src/App.tsx` lines 205-238).
`inputPrice`/`inputQuantity` are the parsed form inputs (`none` =
absent/`NaN`). -/
def previewData (pos : PortfolioSummary) (transactionType : TxType)
    (inputPrice inputQuantity : Option ℚ) : Option PreviewResult :=
  match inputPrice, inputQuantity with
  | some p, some q =>
    if p ≤ 0 ∨ q ≤ 0 then none
    else
      let currentQ := pos.totalQuantity
      let currentC := pos.totalCost
      let currentAvg := pos.averageCost
      let fut : ℚ × ℚ × ℚ :=
        if transactionType = TxType.BUY then
          (currentQ + q, currentC + p * q, 0)
        else
          (max 0 (currentQ - q), max 0 (currentQ - q) * currentAvg, (p - currentAvg) * q)
      let futureAvg := if 0 < fut.1 then fut.2.1 / fut.1 else 0
      some ⟨futureAvg, futureAvg - currentAvg, decide (currentQ = 0),
            if transactionType = TxType.SELL then some fut.2.2 else none⟩
  | _, _ => none

/-- Simulation status, from `src/types.ts`. -/
inductive SimStatus where
  | PROFIT
  | LOSS
  | NEUTRAL
  deriving DecidableEq, Repr

/-- Simulation result, from `src/types.ts` (`SimulationResult`). -/
structure SimulationResult where
  currentValue : ℚ
  profitOrLossTotal : ℚ
  profitOrLossPerShare : ℚ
  percentageChange : ℚ
  status : SimStatus
  deriving DecidableEq, Repr

/-- The Simulation Engine (`simulation`, `src/App.tsx` lines 240-258):
null when the price input is absent/unparseable or the position is empty;
otherwise the unrealized P/L figures and a tri-state status. -/
def simulation (pos : PortfolioSummary) (simulationPrice : Option ℚ) :
    Option SimulationResult :=
  match simulationPrice with
  | none => none
  | some currentP =>
    if pos.totalQuantity = 0 then none
    else
      let currentVal := currentP * pos.totalQuantity
      let plTotal := currentVal - pos.totalCost
      let plPerShare := currentP - pos.averageCost
      let pctChange := if 0 < pos.averageCost then plPerShare / pos.averageCost * 100 else 0
      some ⟨currentVal, plTotal, plPerShare, pctChange,
            if 0 < plTotal then SimStatus.PROFIT
            else if plTotal < 0 then SimStatus.LOSS else SimStatus.NEUTRAL⟩

/-- Outcome of the Cost-Averaging Solver: a structured error message or a
solve (`src/App.tsx` lines 270, 274, 280-284). -/
inductive CostAvgOutcome where
  | error (msg : String)
  | ok (requiredQty requiredCapital : ℚ)
  deriving DecidableEq, Repr

/-- The Cost-Averaging Solver (`costAveragingData`, `src/App.tsx` lines
261-285): inactive (null) unless the simulation exists with status LOSS
and a positive parsed target; then two validation errors in order, then
the solve. -/
def costAveragingData (pos : PortfolioSummary)
    (simulationPrice targetAverageInput : Option ℚ) : Option CostAvgOutcome :=
  match simulation pos simulationPrice, simulationPrice, targetAverageInput with
  | some sim, some simPrice, some targetAvg =>
    if sim.status ≠ SimStatus.LOSS then none
    else if targetAvg ≤ 0 then none
    else if targetAvg ≤ simPrice then some (CostAvgOutcome.error "Hedef > Anlik Fiyat")
    else if pos.averageCost ≤ targetAvg then some (CostAvgOutcome.error "Hedef < Ort. Maliyet")
    else
      let requiredQty := pos.totalQuantity * (pos.averageCost - targetAvg) / (targetAvg - simPrice)
      some (CostAvgOutcome.ok requiredQty (requiredQty * simPrice))
  | _, _, _ => none

/-- Clamp a running state to zero componentwise (`Math.max(0, ·)`). -/
def clampState (st : ℚ × ℚ) : ℚ × ℚ := (max 0 st.1, max 0 st.2)

/-- An aggregator iteration followed by an immediate clamp — the
per-iteration-clamped replay step. -/
def clampedSummaryStep (st : ℚ × ℚ) (t : Transaction) : ℚ × ℚ :=
  clampState (summaryStep st t)

/-- Modelled from the claim's words, for comparison with `summary`: the
Position Aggregator as it would be if the running quantity and cost were
clamped to zero after each transaction inside the replay loop. -/
def summaryClampedEach (l : List Transaction) : PortfolioSummary :=
  let act := activeTx l
  if act = [] then ⟨0, 0, 0⟩
  else
    let st := act.foldl clampedSummaryStep (0, 0)
    let q := max 0 st.1
    let c := max 0 st.2
    ⟨q, c, if 0 < q then c / q else 0⟩

/-- Decidable check that an (unclamped) aggregator replay from state `st`
keeps both running components nonnegative after every transaction. -/
def nonnegReplay : ℚ × ℚ → List Transaction → Bool
  | _, [] => true
  | st, t :: ts =>
    let st' := summaryStep st t
    decide (0 ≤ st'.1) && decide (0 ≤ st'.2) && nonnegReplay st' ts

/-- Shorthand for an active BUY transaction. -/
def buyTx (p q : ℚ) : Transaction := ⟨p, q, true, TxType.BUY⟩

/-- Shorthand for an active SELL transaction. -/
def sellTx (p q : ℚ) : Transaction := ⟨p, q, true, TxType.SELL⟩

/-- The per-index contract stated by claim C5 for the annotation at
position `i`: the annotator keeps the transaction and attaches stats with
null realized P/L for BUYs, for inactive transactions and for sells from a
non-positive running quantity, and with the claimed realized P/L and
percentage for an active SELL executed at strictly positive running
quantity (running state taken before the transaction). -/
def annotationSpec (l : List Transaction) (i : ℕ) (t : Transaction) : Prop :=
  ∃ stats : TxStats,
    (transactionsWithStats l)[i]? = some (t, stats) ∧
    (t.type = TxType.BUY → stats.realizedPL = none) ∧
    (t.isActive = false → stats.realizedPL = none) ∧
    (t.isActive = true → t.type = TxType.SELL →
      ((annotateState (l.take i)).1 ≤ 0 → stats.realizedPL = none) ∧
      (0 < (annotateState (l.take i)).1 →
        stats.realizedPL = some (t.quantity * t.price -
          t.quantity * ((annotateState (l.take i)).2 / (annotateState (l.take i)).1)) ∧
        stats.realizedPLPercent =
          (if 0 < (annotateState (l.take i)).2 / (annotateState (l.take i)).1 then
            (t.price - (annotateState (l.take i)).2 / (annotateState (l.take i)).1) /
              ((annotateState (l.take i)).2 / (annotateState (l.take i)).1) * 100
          else 0)))

/-- The validation contract stated by claim C6 for the Cost-Averaging
Solver (given a LOSS simulation): non-positive target is inactive (null),
then the two structured errors in order, then the solve. -/
def solverValidationSpec (pos : PortfolioSummary) (s t : ℚ) : Prop :=
  (t ≤ 0 → costAveragingData pos (some s) (some t) = none) ∧
  (0 < t → t ≤ s →
    costAveragingData pos (some s) (some t) =
      some (CostAvgOutcome.error "Hedef > Anlik Fiyat")) ∧
  (0 < t → s < t → pos.averageCost ≤ t →
    costAveragingData pos (some s) (some t) =
      some (CostAvgOutcome.error "Hedef < Ort. Maliyet")) ∧
  (0 < t → s < t → t < pos.averageCost →
    costAveragingData pos (some s) (some t) =
      some (CostAvgOutcome.ok
        (pos.totalQuantity * (pos.averageCost - t) / (t - s))
        (pos.totalQuantity * (pos.averageCost - t) / (t - s) * s)))

/-- The output contract stated by claim C9 for the Preview Engine at
positive numeric inputs, for BUY and for SELL. -/
def previewSpec (pos : PortfolioSummary) (p q : ℚ) : Prop :=
  (∃ r : PreviewResult,
    previewData pos TxType.BUY (some p) (some q) = some r ∧
    r.newAvg = (if 0 < pos.totalQuantity + q then
        (pos.totalCost + p * q) / (pos.totalQuantity + q) else 0) ∧
    r.diff = r.newAvg - pos.averageCost ∧
    (r.isFirst = true ↔ pos.totalQuantity = 0) ∧
    r.estimatedRealizedPL = none) ∧
  (∃ r : PreviewResult,
    previewData pos TxType.SELL (some p) (some q) = some r ∧
    r.newAvg = (if 0 < max 0 (pos.totalQuantity - q) then
        max 0 (pos.totalQuantity - q) * pos.averageCost / max 0 (pos.totalQuantity - q)
      else 0) ∧
    r.diff = r.newAvg - pos.averageCost ∧
    (r.isFirst = true ↔ pos.totalQuantity = 0) ∧
    r.estimatedRealizedPL = some ((p - pos.averageCost) * q))

/-! ### Helper lemmas about the replays -/

/-- `summary` without the empty-list special case: the final clamp and
average applied to the fold of `summaryStep` over the active transactions. -/
theorem summary_eq_fold (l : List Transaction) :
    summary l =
      ⟨max 0 ((activeTx l).foldl summaryStep (0, 0)).1,
       max 0 ((activeTx l).foldl summaryStep (0, 0)).2,
       if 0 < max 0 ((activeTx l).foldl summaryStep (0, 0)).1 then
         max 0 ((activeTx l).foldl summaryStep (0, 0)).2 /
           max 0 ((activeTx l).foldl summaryStep (0, 0)).1
       else 0⟩ := by
  unfold summary
  cases h : activeTx l with
  | nil => simp
  | cons a as => simp

/-- Clamping a componentwise-nonnegative state is the identity. -/
theorem clampState_eq_self {st : ℚ × ℚ} (h1 : 0 ≤ st.1) (h2 : 0 ≤ st.2) :
    clampState st = st := by
  unfold clampState
  rw [max_eq_right h1, max_eq_right h2]

/-- Clamping twice is the same as clamping once. -/
theorem clampState_idem (st : ℚ × ℚ) : clampState (clampState st) = clampState st :=
  clampState_eq_self (le_max_left _ _) (le_max_left _ _)

/-- On an active transaction, the annotator's state transition is exactly
an aggregator step followed by a clamp. -/
theorem annStep_active (st : ℚ × ℚ) (t : Transaction) (h : t.isActive = true) :
    annStep st t = clampedSummaryStep st t := by
  unfold annStep annotateStep clampedSummaryStep clampState summaryStep
  by_cases hb : t.type = TxType.BUY
  · simp [h, hb]
  · by_cases hq : 0 < st.1
    · have h0 : st.1 ≠ 0 := ne_of_gt hq
      have key : st.2 - t.quantity * (st.2 / st.1) = (st.1 - t.quantity) * (st.2 / st.1) := by
        field_simp
        ring
      simp [h, hb, hq, key]
    · simp [h, hb, hq]

/-- On an inactive transaction, the annotator's state transition is just
the clamp. -/
theorem annStep_inactive (st : ℚ × ℚ) (t : Transaction) (h : t.isActive = false) :
    annStep st t = clampState st := by
  unfold annStep annotateStep clampState
  simp [h]

/-- The annotator's replay is the per-iteration-clamped aggregator replay
over the active transactions, from any already-clamped state. -/
theorem foldl_annStep_eq_clamped (l : List Transaction) :
    ∀ st : ℚ × ℚ, clampState st = st →
      l.foldl annStep st = (activeTx l).foldl clampedSummaryStep st := by
  induction l with
  | nil => intro st _; rfl
  | cons t ts ih =>
    intro st hst
    by_cases ha : t.isActive = true
    · have hact : activeTx (t :: ts) = t :: activeTx ts := by
        simp [activeTx, ha]
      rw [hact, List.foldl_cons, List.foldl_cons, annStep_active st t ha]
      exact ih _ (clampState_idem _)
    · have hfa : t.isActive = false := by
        simpa using ha
      have hact : activeTx (t :: ts) = activeTx ts := by
        simp [activeTx, hfa]
      rw [hact, List.foldl_cons, annStep_inactive st t hfa, hst]
      exact ih st hst

/-- The annotator's final running state, via the clamped aggregator replay. -/
theorem annotateState_eq (l : List Transaction) :
    annotateState l = (activeTx l).foldl clampedSummaryStep (0, 0) :=
  foldl_annStep_eq_clamped l (0, 0) (clampState_eq_self le_rfl le_rfl)

/-- If the unclamped replay stays nonnegative, the per-iteration clamp
never fires: both replays coincide and the final state is already clamped. -/
theorem nonnegReplay_foldl (l : List Transaction) :
    ∀ st : ℚ × ℚ, clampState st = st → nonnegReplay st l = true →
      l.foldl clampedSummaryStep st = l.foldl summaryStep st ∧
      clampState (l.foldl summaryStep st) = l.foldl summaryStep st := by
  induction l with
  | nil => intro st h _; exact ⟨rfl, h⟩
  | cons t ts ih =>
    intro st hst hn
    simp only [nonnegReplay, Bool.and_eq_true, decide_eq_true_eq] at hn
    obtain ⟨⟨h1, h2⟩, h3⟩ := hn
    have hcl : clampState (summaryStep st t) = summaryStep st t := clampState_eq_self h1 h2
    have hstep : clampedSummaryStep st t = summaryStep st t := hcl
    rw [List.foldl_cons, List.foldl_cons, hstep]
    exact ih _ hcl h3

/-- The stats attached at a BUY transaction: null realized P/L, zero percent. -/
theorem annotateStep_buy (st : ℚ × ℚ) (t : Transaction) (h : t.type = TxType.BUY) :
    (annotateStep st t).1 = ⟨none, 0⟩ := by
  unfold annotateStep
  by_cases ha : t.isActive = true <;> simp [ha, h]

/-- The stats attached at an inactive transaction: null realized P/L. -/
theorem annotateStep_inactive_stats (st : ℚ × ℚ) (t : Transaction)
    (h : t.isActive = false) : (annotateStep st t).1 = ⟨none, 0⟩ := by
  unfold annotateStep
  simp [h]

/-- The stats attached at an active SELL executed at non-positive running
quantity: null realized P/L. -/
theorem annotateStep_sell_zero (st : ℚ × ℚ) (t : Transaction)
    (ha : t.isActive = true) (hs : t.type = TxType.SELL) (h : st.1 ≤ 0) :
    (annotateStep st t).1 = ⟨none, 0⟩ := by
  unfold annotateStep
  simp [ha, hs, not_lt.mpr h]

/-- The stats attached at an active SELL executed at positive running
quantity: realized P/L against the pre-sale average `st.2 / st.1`. -/
theorem annotateStep_sell_pos (st : ℚ × ℚ) (t : Transaction)
    (ha : t.isActive = true) (hs : t.type = TxType.SELL) (h : 0 < st.1) :
    (annotateStep st t).1 =
      ⟨some (t.quantity * t.price - t.quantity * (st.2 / st.1)),
       if 0 < st.2 / st.1 then (t.price - st.2 / st.1) / (st.2 / st.1) * 100 else 0⟩ := by
  unfold annotateStep
  simp [ha, hs, h]

/-- The annotated list keeps every transaction at its index and attaches
the stats computed by `annotateStep` from the running state accumulated
over the prefix. -/
theorem annotateFrom_getElem (l : List Transaction) :
    ∀ (st : ℚ × ℚ) (i : ℕ) (t : Transaction), l[i]? = some t →
      (annotateFrom st l)[i]? =
        some (t, (annotateStep ((l.take i).foldl annStep st) t).1) := by
  induction l with
  | nil => intro st i t h; simp at h
  | cons a as ih =>
    intro st i t h
    cases i with
    | zero =>
      simp only [List.getElem?_cons_zero, Option.some.injEq] at h
      subst h
      simp [annotateFrom]
    | succ n =>
      simp only [List.getElem?_cons_succ] at h
      rw [annotateFrom]
      simp only [List.getElem?_cons_succ, List.take_succ_cons, List.foldl_cons]
      exact ih _ n t h

/-- Inversion of a successful solve: the guards that were passed and the
returned formulas (`src/App.tsx` lines 262-284). -/
theorem costAveragingData_ok_inv (pos : PortfolioSummary) (s t rq rc : ℚ)
    (h : costAveragingData pos (some s) (some t) = some (CostAvgOutcome.ok rq rc)) :
    pos.totalQuantity ≠ 0 ∧ 0 < t ∧ s < t ∧ t < pos.averageCost ∧
    rq = pos.totalQuantity * (pos.averageCost - t) / (t - s) ∧ rc = rq * s := by
  unfold costAveragingData at h
  cases hsim : simulation pos (some s) with
  | none =>
    rw [hsim] at h
    simp at h
  | some sim =>
    rw [hsim] at h
    have hq : pos.totalQuantity ≠ 0 := by
      intro h0
      unfold simulation at hsim
      simp [h0] at hsim
    split at h
    · rename_i sim' simPrice' targetAvg' e1 e2 e3
      injection e1 with e1
      injection e2 with e2
      injection e3 with e3
      subst e1
      subst e2
      subst e3
      split at h
      · simp at h
      · split at h
        · simp at h
        · split at h
          · simp at h
          · split at h
            · simp at h
            · rename_i hloss ht0 hts hta
              simp only [Option.some.injEq, CostAvgOutcome.ok.injEq] at h
              exact ⟨hq, not_le.mp ht0, not_le.mp hts, not_le.mp hta, h.1.symm,
                by rw [← h.2, h.1]⟩
    · rename_i hno
      exact (hno sim s t rfl rfl rfl).elim

/-- The blended-average identity: buying `qty*(avg-t)/(t-s)` more units at
price `s` moves the average of a `qty`-unit position from `avg` to `t`. -/
theorem blended_eq (qty avg s t : ℚ) (hq : qty ≠ 0) (hst : s < t) (hta : t < avg) :
    (qty * avg + qty * (avg - t) / (t - s) * s) / (qty + qty * (avg - t) / (t - s)) = t := by
  have hts : t - s ≠ 0 := sub_ne_zero.mpr (ne_of_gt hst)
  have hsa : avg - s ≠ 0 := sub_ne_zero.mpr (ne_of_gt (hst.trans hta))
  have hden : qty + qty * (avg - t) / (t - s) = qty * (avg - s) / (t - s) := by
    field_simp
    ring
  have hden0 : qty * (avg - s) / (t - s) ≠ 0 :=
    div_ne_zero (mul_ne_zero hq hsa) hts
  rw [hden, div_eq_iff hden0]
  field_simp
  ring

/-- Projection of `summary_eq_fold`: the final quantity. -/
theorem summary_totalQuantity (l : List Transaction) :
    (summary l).totalQuantity = max 0 ((activeTx l).foldl summaryStep (0, 0)).1 := by
  rw [summary_eq_fold]

/-- Projection of `summary_eq_fold`: the final cost. -/
theorem summary_totalCost (l : List Transaction) :
    (summary l).totalCost = max 0 ((activeTx l).foldl summaryStep (0, 0)).2 := by
  rw [summary_eq_fold]

/-- Projection of `summary_eq_fold`: the final average. -/
theorem summary_averageCost (l : List Transaction) :
    (summary l).averageCost =
      (if 0 < max 0 ((activeTx l).foldl summaryStep (0, 0)).1 then
        max 0 ((activeTx l).foldl summaryStep (0, 0)).2 /
          max 0 ((activeTx l).foldl summaryStep (0, 0)).1
      else 0) := by
  rw [summary_eq_fold]

/-- Componentwise congruence for `PortfolioSummary` literals. -/
theorem portfolio_mk_congr {a b c a' b' c' : ℚ} (h1 : a = a') (h2 : b = b')
    (h3 : c = c') : (⟨a, b, c⟩ : PortfolioSummary) = ⟨a', b', c'⟩ := by
  rw [h1, h2, h3]

/-- An aggregator step on an active in-range sale from a positive state. -/
theorem summaryStep_sell (st : ℚ × ℚ) (p q : ℚ) (hst : 0 < st.1) :
    summaryStep st (sellTx p q) = (st.1 - q, (st.1 - q) * (st.2 / st.1)) := by
  unfold summaryStep sellTx
  simp [hst]

/-- Appending an in-range active sale to any history: the quantity drops
by the sold amount, the cost scales to the remaining quantity at the old
average, and the average is unchanged. -/
theorem summary_append_sell (l : List Transaction) (p q : ℚ)
    (hq : 0 < q) (hlt : q < (summary l).totalQuantity) :
    summary (l ++ [sellTx p q]) =
      ⟨(summary l).totalQuantity - q,
       ((summary l).totalQuantity - q) * (summary l).averageCost,
       (summary l).averageCost⟩ := by
  have hQ := summary_totalQuantity l
  have hmax : 0 < max 0 ((activeTx l).foldl summaryStep (0, 0)).1 := by
    rw [hQ] at hlt
    exact hq.trans hlt
  have hx1 : 0 < ((activeTx l).foldl summaryStep (0, 0)).1 := by
    rcases le_or_lt ((activeTx l).foldl summaryStep (0, 0)).1 0 with h | h
    · rw [max_eq_left h] at hmax
      exact absurd hmax (lt_irrefl 0)
    · exact h
  have hmaxeq : max 0 ((activeTx l).foldl summaryStep (0, 0)).1 =
      ((activeTx l).foldl summaryStep (0, 0)).1 := max_eq_right (le_of_lt hx1)
  have hq1 : 0 < ((activeTx l).foldl summaryStep (0, 0)).1 - q := by
    rw [hQ, hmaxeq] at hlt
    linarith
  have hact : activeTx (l ++ [sellTx p q]) = activeTx l ++ [sellTx p q] := by
    simp [activeTx, sellTx]
  have hfold : (activeTx (l ++ [sellTx p q])).foldl summaryStep (0, 0) =
      summaryStep ((activeTx l).foldl summaryStep (0, 0)) (sellTx p q) := by
    rw [hact, List.foldl_append]
    rfl
  have havg : (summary l).averageCost =
      max 0 ((activeTx l).foldl summaryStep (0, 0)).2 /
        ((activeTx l).foldl summaryStep (0, 0)).1 := by
    rw [summary_averageCost l, if_pos hmax, hmaxeq]
  have hqmax : max 0 (((activeTx l).foldl summaryStep (0, 0)).1 - q) =
      ((activeTx l).foldl summaryStep (0, 0)).1 - q := max_eq_right (le_of_lt hq1)
  rw [summary_eq_fold (l ++ [sellTx p q]), hfold,
    summaryStep_sell ((activeTx l).foldl summaryStep (0, 0)) p q hx1, hQ, hmaxeq, havg]
  rcases le_or_lt 0 ((activeTx l).foldl summaryStep (0, 0)).2 with h2 | h2
  · have hc2 : max 0 ((activeTx l).foldl summaryStep (0, 0)).2 =
        ((activeTx l).foldl summaryStep (0, 0)).2 := max_eq_right h2
    have hcost : max 0 ((((activeTx l).foldl summaryStep (0, 0)).1 - q) *
        (((activeTx l).foldl summaryStep (0, 0)).2 /
         ((activeTx l).foldl summaryStep (0, 0)).1)) =
        (((activeTx l).foldl summaryStep (0, 0)).1 - q) *
        (((activeTx l).foldl summaryStep (0, 0)).2 /
         ((activeTx l).foldl summaryStep (0, 0)).1) :=
      max_eq_right (mul_nonneg (le_of_lt hq1) (div_nonneg h2 (le_of_lt hx1)))
    rw [hqmax, hcost, hc2]
    exact portfolio_mk_congr rfl rfl
      (by rw [if_pos hq1]; exact mul_div_cancel_left₀ _ (ne_of_gt hq1))
  · have hc2 : max 0 ((activeTx l).foldl summaryStep (0, 0)).2 = 0 :=
      max_eq_left (le_of_lt h2)
    have hcost : max 0 ((((activeTx l).foldl summaryStep (0, 0)).1 - q) *
        (((activeTx l).foldl summaryStep (0, 0)).2 /
         ((activeTx l).foldl summaryStep (0, 0)).1)) = 0 :=
      max_eq_left (le_of_lt (mul_neg_of_pos_of_neg hq1 (div_neg_of_neg_of_pos h2 hx1)))
    rw [hqmax, hcost, hc2]
    exact portfolio_mk_congr rfl (by simp) (by rw [if_pos hq1]; simp)

/-- The per-index annotation contract holds for every index of every list. -/
theorem annotation_spec_of_get (l : List Transaction) (i : ℕ) (t : Transaction)
    (h : l[i]? = some t) : annotationSpec l i t := by
  refine ⟨(annotateStep (annotateState (l.take i)) t).1,
    annotateFrom_getElem l (0, 0) i t h, ?_, ?_, ?_⟩
  · intro hb
    rw [annotateStep_buy _ _ hb]
  · intro hi
    rw [annotateStep_inactive_stats _ _ hi]
  · intro ha hs
    constructor
    · intro hle
      rw [annotateStep_sell_zero _ _ ha hs hle]
    · intro hpos
      rw [annotateStep_sell_pos _ _ ha hs hpos]
      exact ⟨rfl, rfl⟩



/-- BUY and SELL are distinct, in the orientation needed for BUY-branch tests. -/
@[simp] theorem buy_eq_sell_false : (TxType.BUY = TxType.SELL) = False := by
  simp [Ne.symm sell_ne_buy]

/-- Evaluation of the Preview Engine on a BUY with valid inputs. -/
theorem previewData_buy (pos : PortfolioSummary) (p q : ℚ) (hp : 0 < p) (hq : 0 < q) :
    previewData pos TxType.BUY (some p) (some q) =
      some ⟨(if 0 < pos.totalQuantity + q then
               (pos.totalCost + p * q) / (pos.totalQuantity + q) else 0),
            (if 0 < pos.totalQuantity + q then
               (pos.totalCost + p * q) / (pos.totalQuantity + q) else 0) - pos.averageCost,
            decide (pos.totalQuantity = 0), none⟩ := by
  have hguard : ¬(p ≤ 0 ∨ q ≤ 0) := by
    push_neg
    exact ⟨hp, hq⟩
  simp [previewData, hguard]

/-- Evaluation of the Preview Engine on a SELL with valid inputs. -/
theorem previewData_sell (pos : PortfolioSummary) (p q : ℚ) (hp : 0 < p) (hq : 0 < q) :
    previewData pos TxType.SELL (some p) (some q) =
      some ⟨(if 0 < max 0 (pos.totalQuantity - q) then
               max 0 (pos.totalQuantity - q) * pos.averageCost /
                 max 0 (pos.totalQuantity - q) else 0),
            (if 0 < max 0 (pos.totalQuantity - q) then
               max 0 (pos.totalQuantity - q) * pos.averageCost /
                 max 0 (pos.totalQuantity - q) else 0) - pos.averageCost,
            decide (pos.totalQuantity = 0), some ((p - pos.averageCost) * q)⟩ := by
  have hguard : ¬(p ≤ 0 ∨ q ≤ 0) := by
    push_neg
    exact ⟨hp, hq⟩
  simp [previewData, hguard]

/-! ### Claim theorems -/

/-- C1: whenever the Cost-Averaging Solver returns a result (no error) —
its guards enforce status LOSS, targetAverage > 0 and
simulatedPrice < targetAverage < averageCost — the returned
requiredQuantity equals
`totalQuantity * (averageCost - targetAverage) / (targetAverage - simulatedPrice)`,
requiredCapital equals `requiredQuantity * simulatedPrice`, and the blended
average `(qty*avg + x*s)/(qty + x)` equals the target; in particular for
qty=10, avg=100, simulated price 50 and target 90 the solver returns
requiredQuantity 5/2 and requiredCapital 125. -/
theorem C1_solver_formula :
    (∀ (pos : PortfolioSummary) (s t rq rc : ℚ),
      costAveragingData pos (some s) (some t) = some (CostAvgOutcome.ok rq rc) →
      rq = pos.totalQuantity * (pos.averageCost - t) / (t - s) ∧
      rc = rq * s ∧
      (pos.totalQuantity * pos.averageCost + rq * s) / (pos.totalQuantity + rq) = t) ∧
    costAveragingData ⟨10, 1000, 100⟩ (some 50) (some 90) =
      some (CostAvgOutcome.ok (5/2) 125) := by
  constructor
  · intro pos s t rq rc h
    obtain ⟨hq, ht0, hst, hta, hrq, hrc⟩ := costAveragingData_ok_inv pos s t rq rc h
    refine ⟨hrq, hrc, ?_⟩
    rw [hrq]
    exact blended_eq pos.totalQuantity pos.averageCost s t hq hst hta
  · norm_num [costAveragingData, simulation]

/-- Witness for C1: the general statement applied at the spec's concrete
cost-averaging example. -/
theorem C1_solver_formula_witness :
    (5/2 : ℚ) = 10 * ((100 : ℚ) - 90) / (90 - 50) ∧
    (125 : ℚ) = 5/2 * 50 ∧
    ((10 : ℚ) * 100 + 5/2 * 50) / (10 + 5/2) = 90 :=
  C1_solver_formula.1 ⟨10, 1000, 100⟩ 50 90 (5/2) 125 C1_solver_formula.2

/-- C2 counterexample: on `[SELL 1@10, BUY 2@10]` the Position Aggregator
(which clamps only once, after the loop) returns totalQuantity 1, while
the aggregator that clamps after each transaction inside the loop would
return totalQuantity 2 — so the aggregator does not clamp each iteration. -/
theorem C2_clamp_counterexample :
    summary [sellTx 10 1, buyTx 10 2] = ⟨1, 10, 10⟩ ∧
    summaryClampedEach [sellTx 10 1, buyTx 10 2] = ⟨2, 20, 10⟩ ∧
    summary [sellTx 10 1, buyTx 10 2] ≠ summaryClampedEach [sellTx 10 1, buyTx 10 2] := by
  have h1 : summary [sellTx 10 1, buyTx 10 2] = ⟨1, 10, 10⟩ := by
    norm_num [summary, activeTx, summaryStep, buyTx, sellTx, List.cons_ne_nil]
  have h2 : summaryClampedEach [sellTx 10 1, buyTx 10 2] = ⟨2, 20, 10⟩ := by
    norm_num [summaryClampedEach, activeTx, clampedSummaryStep, clampState, summaryStep,
      buyTx, sellTx, List.cons_ne_nil]
  refine ⟨h1, h2, ?_⟩
  rw [h1, h2]
  norm_num [PortfolioSummary.mk.injEq]

/-- C2 amended: the Realized P/L Annotator does clamp the running quantity
and cost after each transaction inside its replay loop (its running state
is the per-iteration-clamped replay of the active transactions), but the
Position Aggregator clamps only once, after the full replay. -/
theorem C2_clamping_shape :
    (∀ l : List Transaction,
      annotateState l = (activeTx l).foldl clampedSummaryStep (0, 0)) ∧
    (∀ l : List Transaction, summary l =
      ⟨max 0 ((activeTx l).foldl summaryStep (0, 0)).1,
       max 0 ((activeTx l).foldl summaryStep (0, 0)).2,
       if 0 < max 0 ((activeTx l).foldl summaryStep (0, 0)).1 then
         max 0 ((activeTx l).foldl summaryStep (0, 0)).2 /
           max 0 ((activeTx l).foldl summaryStep (0, 0)).1
       else 0⟩) :=
  ⟨annotateState_eq, summary_eq_fold⟩

/-- C3 counterexample: a numeric non-positive price (0 ≤ 0) together with a
nonempty position does NOT make the Simulation Engine return null — it
computes a LOSS result, refuting "price ≤ 0 yields no derivation". -/
theorem C3_nonpositive_price_counterexample :
    (0 : ℚ) ≤ 0 ∧ simulation ⟨5, 500, 100⟩ (some 0) ≠ none := by
  refine ⟨le_refl 0, ?_⟩
  norm_num [simulation, Option.some_ne_none]

/-- C3 amended: the Simulation Engine returns null exactly when the price
input is absent/unparseable or the position is empty; a numeric
non-positive price still yields a computed result. -/
theorem C3_simulation_none_iff (pos : PortfolioSummary) (p : Option ℚ) :
    simulation pos p = none ↔ p = none ∨ pos.totalQuantity = 0 := by
  cases p with
  | none => simp [simulation]
  | some v =>
    by_cases h : pos.totalQuantity = 0 <;> simp [simulation, h]

/-- C4 counterexample: on `[SELL 1@10, BUY 2@10]` the annotator's final
running state is (2, 20), but `summary` returns totalQuantity 1 and
totalCost 10 — the two replays do not agree on every sequence. -/
theorem C4_replay_counterexample :
    annotateState [sellTx 10 1, buyTx 10 2] = (2, 20) ∧
    (summary [sellTx 10 1, buyTx 10 2]).totalQuantity = 1 ∧
    (summary [sellTx 10 1, buyTx 10 2]).totalCost = 10 ∧
    annotateState [sellTx 10 1, buyTx 10 2] ≠
      ((summary [sellTx 10 1, buyTx 10 2]).totalQuantity,
       (summary [sellTx 10 1, buyTx 10 2]).totalCost) := by
  have h1 : annotateState [sellTx 10 1, buyTx 10 2] = ((2 : ℚ), (20 : ℚ)) := by
    norm_num [annotateState, annStep, annotateStep, buyTx, sellTx]
  have h2 : summary [sellTx 10 1, buyTx 10 2] = ⟨1, 10, 10⟩ := by
    norm_num [summary, activeTx, summaryStep, buyTx, sellTx, List.cons_ne_nil]
  refine ⟨h1, by rw [h2], by rw [h2], ?_⟩
  rw [h1, h2]
  norm_num [Prod.ext_iff]

/-- C4 amended: the annotator's final running quantity and cost equal the
totalQuantity and totalCost of the Position produced by `summary` whenever
the unclamped replay of the active transactions stays nonnegative after
every step (in particular when no sale exceeds the held quantity); in
general the two replays differ, because the annotator clamps after each
iteration and the aggregator only once at the end. -/
theorem C4_annotator_matches_aggregate (l : List Transaction)
    (h : nonnegReplay (0, 0) (activeTx l) = true) :
    annotateState l = ((summary l).totalQuantity, (summary l).totalCost) := by
  have h0 : clampState ((0 : ℚ), (0 : ℚ)) = (0, 0) := clampState_eq_self le_rfl le_rfl
  obtain ⟨e2, e3⟩ := nonnegReplay_foldl (activeTx l) (0, 0) h0 h
  have e4 : max 0 ((activeTx l).foldl summaryStep (0, 0)).1 =
      ((activeTx l).foldl summaryStep (0, 0)).1 := congrArg Prod.fst e3
  have e5 : max 0 ((activeTx l).foldl summaryStep (0, 0)).2 =
      ((activeTx l).foldl summaryStep (0, 0)).2 := congrArg Prod.snd e3
  rw [annotateState_eq l, e2, summary_totalQuantity l, summary_totalCost l, e4, e5]

/-- Witness for C4 at the spec's realized-P/L example sequence. -/
theorem C4_annotator_matches_aggregate_witness :
    annotateState [buyTx 100 10, sellTx 150 4] =
      ((summary [buyTx 100 10, sellTx 150 4]).totalQuantity,
       (summary [buyTx 100 10, sellTx 150 4]).totalCost) :=
  C4_annotator_matches_aggregate [buyTx 100 10, sellTx 150 4]
    (by norm_num [nonnegReplay, activeTx, summaryStep, buyTx, sellTx,
      Bool.and_eq_true, decide_eq_true_eq])

/-- C5: the annotator attaches to each active SELL executed at strictly
positive running quantity the realized P/L
`quantity*price - quantity*(cost/qty pre-sale)` and the percentage
`(price - preSaleAvg)/preSaleAvg*100` (0 when the pre-sale average is not
positive); BUYs, inactive transactions and sells at non-positive running
quantity get null realized P/L; on `[BUY 10@100, SELL 4@150]` the sell
carries realized P/L 200 and percentage 50. -/
theorem C5_annotator_stats :
    (∀ (l : List Transaction) (i : ℕ) (t : Transaction),
      l[i]? = some t → annotationSpec l i t) ∧
    (transactionsWithStats [buyTx 100 10, sellTx 150 4]).map
        (fun x => (x.2.realizedPL, x.2.realizedPLPercent)) =
      [(none, 0), (some 200, 50)] := by
  refine ⟨fun l i t h => annotation_spec_of_get l i t h, ?_⟩
  norm_num [transactionsWithStats, annotateFrom, annotateStep, buyTx, sellTx]

/-- Witness for C5 at index 1 of the spec's example sequence. -/
theorem C5_annotator_stats_witness :
    annotationSpec [buyTx 100 10, sellTx 150 4] 1 (sellTx 150 4) :=
  C5_annotator_stats.1 [buyTx 100 10, sellTx 150 4] 1 (sellTx 150 4) (by simp)

/-- C6: given a LOSS simulation, the Cost-Averaging Solver validates in
order — non-positive target: no result (null, not an error); target ≤
simulated price: first structured error; target ≥ average cost: second
structured error; otherwise the solve — and, being a total function, it
never throws. -/
theorem C6_solver_validation (pos : PortfolioSummary) (s t : ℚ)
    (sim : SimulationResult) (hsim : simulation pos (some s) = some sim)
    (hloss : sim.status = SimStatus.LOSS) :
    solverValidationSpec pos s t := by
  unfold solverValidationSpec costAveragingData
  rw [hsim]
  refine ⟨?_, ?_, ?_, ?_⟩
  · intro h1
    simp [hloss, h1]
  · intro h1 h2
    simp [hloss, not_le.mpr h1, h2]
  · intro h1 h2 h3
    simp [hloss, not_le.mpr h1, not_le.mpr h2, h3]
  · intro h1 h2 h3
    simp [hloss, not_le.mpr h1, not_le.mpr h2, not_le.mpr h3]

/-- Witness for C6 at the spec's example position and simulated price. -/
theorem C6_solver_validation_witness : solverValidationSpec ⟨10, 1000, 100⟩ 50 90 :=
  C6_solver_validation ⟨10, 1000, 100⟩ 50 90 ⟨500, -500, -50, -50, SimStatus.LOSS⟩
    (by norm_num [simulation]) rfl

/-- C7: a sale never changes the average cost of the remainder — appending
an active SELL of quantity `0 < q <` held quantity, at any price, yields
quantity `qty - q`, cost `(qty - q) * avg` and unchanged average; in
particular from qty=10, avg=100 (cost 1000), selling 4 units at any price
yields qty=6, cost=600, avg=100. -/
theorem C7_sale_invariance :
    (∀ (l : List Transaction) (p q : ℚ),
      0 < q → q < (summary l).totalQuantity →
      summary (l ++ [sellTx p q]) =
        ⟨(summary l).totalQuantity - q,
         ((summary l).totalQuantity - q) * (summary l).averageCost,
         (summary l).averageCost⟩) ∧
    (∀ p : ℚ, summary [buyTx 100 10, sellTx p 4] = ⟨6, 600, 100⟩) := by
  refine ⟨summary_append_sell, ?_⟩
  intro p
  have hb : summary [buyTx 100 10] = ⟨10, 1000, 100⟩ := by
    norm_num [summary, activeTx, summaryStep, buyTx]
  have h := summary_append_sell [buyTx 100 10] p 4 (by norm_num)
    (by rw [hb]; norm_num)
  rw [hb] at h
  norm_num at h
  exact h

/-- Witness for C7: the sale-invariance consequence at price 37. -/
theorem C7_sale_invariance_witness :
    summary [buyTx 100 10, sellTx 37 4] = ⟨6, 600, 100⟩ :=
  C7_sale_invariance.2 37

/-- C8: for every finite transaction sequence the aggregate Position has
nonnegative totalQuantity and totalCost, and averageCost is
totalCost/totalQuantity when totalQuantity > 0, else 0. -/
theorem C8_invariants (l : List Transaction) :
    0 ≤ (summary l).totalQuantity ∧ 0 ≤ (summary l).totalCost ∧
    (0 < (summary l).totalQuantity →
      (summary l).averageCost = (summary l).totalCost / (summary l).totalQuantity) ∧
    ((summary l).totalQuantity = 0 → (summary l).averageCost = 0) := by
  rw [summary_totalQuantity, summary_totalCost, summary_averageCost]
  refine ⟨le_max_left _ _, le_max_left _ _, fun h => if_pos h, fun h => ?_⟩
  rw [h]
  exact if_neg (lt_irrefl 0)

/-- Witness for C8 on the empty sequence. -/
theorem C8_invariants_witness :
    0 ≤ (summary []).totalQuantity ∧ 0 ≤ (summary []).totalCost ∧
    (0 < (summary []).totalQuantity →
      (summary []).averageCost = (summary []).totalCost / (summary []).totalQuantity) ∧
    ((summary []).totalQuantity = 0 → (summary []).averageCost = 0) :=
  C8_invariants []

/-- C9: the Preview Engine at positive numeric inputs returns, for BUY,
the average of `(qty + q, cost + p*q)` with null estimated realized P/L,
and for SELL, the average of `(max 0 (qty - q), newQty * avg)` with
estimated realized P/L `(p - avg) * q`; in both cases the delta against
the current average and the first-transaction flag `qty = 0`; a missing or
non-positive price or quantity yields no result. -/
theorem C9_preview :
    (∀ (pos : PortfolioSummary) (p q : ℚ), 0 < p → 0 < q → previewSpec pos p q) ∧
    (∀ (pos : PortfolioSummary) (ty : TxType) (iq : Option ℚ),
      previewData pos ty none iq = none) ∧
    (∀ (pos : PortfolioSummary) (ty : TxType) (ip : Option ℚ),
      previewData pos ty ip none = none) ∧
    (∀ (pos : PortfolioSummary) (ty : TxType) (p q : ℚ), p ≤ 0 ∨ q ≤ 0 →
      previewData pos ty (some p) (some q) = none) := by
  refine ⟨?_, ?_, ?_, ?_⟩
  · intro pos p q hp hq
    constructor
    · rw [previewData_buy pos p q hp hq]
      exact ⟨_, rfl, rfl, rfl, by simp, rfl⟩
    · rw [previewData_sell pos p q hp hq]
      exact ⟨_, rfl, rfl, rfl, by simp, rfl⟩
  · intro pos ty iq
    cases iq <;> rfl
  · intro pos ty ip
    cases ip <;> rfl
  · intro pos ty p q h
    rcases h with h | h <;> simp [previewData, h]

/-- Witness for C9 at the position qty=10, cost=1000, avg=100 with
price 150 and quantity 4. -/
theorem C9_preview_witness : previewSpec ⟨10, 1000, 100⟩ 150 4 :=
  C9_preview.1 ⟨10, 1000, 100⟩ 150 4 (by norm_num) (by norm_num)

/-- C10: on the Cost-Averaging Solver's success branch with a positive
position and positive simulated price, the denominator
`targetAverage - simulatedPrice` is strictly positive and both returned
values are strictly positive. -/
theorem C10_success_positive (pos : PortfolioSummary) (s t rq rc : ℚ)
    (hq : 0 < pos.totalQuantity) (hs : 0 < s)
    (h : costAveragingData pos (some s) (some t) = some (CostAvgOutcome.ok rq rc)) :
    0 < t - s ∧ 0 < rq ∧ 0 < rc := by
  obtain ⟨-, ht0, hst, hta, hrq, hrc⟩ := costAveragingData_ok_inv pos s t rq rc h
  have h1 : 0 < t - s := sub_pos.mpr hst
  have h2 : 0 < rq := by
    rw [hrq]
    exact div_pos (mul_pos hq (sub_pos.mpr hta)) h1
  refine ⟨h1, h2, ?_⟩
  rw [hrc]
  exact mul_pos h2 hs

/-- Witness for C10 at the spec's concrete solve. -/
theorem C10_success_positive_witness :
    (0 : ℚ) < 90 - 50 ∧ (0 : ℚ) < 5/2 ∧ (0 : ℚ) < 125 :=
  C10_success_positive ⟨10, 1000, 100⟩ 50 90 (5/2) 125 (by norm_num) (by norm_num)
    (by norm_num [costAveragingData, simulation])

end Borsa
